import Mathlib

/-!
Verification of the fuel-station analytics core against its specification.

The definitions below are a shallow embedding of the Python sources:
* `src/database/db_manager.py` — the ledger store (rows of the SQLite
  tables, and the read operations the analytics layer uses);
* `src/ui/fuel_inventory.py` — the daily balance resolver
  (`get_previous_day_remaining_quantity`, `get_initial_quantity_for_date`);
* `src/analytics_engine.py` — reconciliation (`_analyser_reservoir`),
  daily and period aggregation (`calculer_pertes_automatiques`,
  `_calculer_pertes_periode`), forecasting (`predire_stock`) and the
  performance scorer (`analyser_performance_pompistes`,
  `_attribuer_badge`).

Conventions of the embedding:
* dates are day numbers in `ℤ` (the Python code moves between days with
  `timedelta(days=1)`; the `YYYY-MM-DD` string format is presentation);
* SQL `REAL` quantities and amounts are `ℚ`;
* a SQL `SELECT ... WHERE` over a table is a `List.filter` over the rows
  held in a `Ledger` value; `fetchone` of a unique-keyed lookup is
  `List.find?`;
* Python recursion is bounded by the interpreter recursion limit; the
  embedding makes that limit an explicit `fuel : ℕ` argument, and the
  `except` handler that fires when the limit is hit is the `fuel = 0`
  branch.
-/

namespace GasStation

/-- A row of the `reservoirs` table (columns used by the analytics layer,
plus `created_at`, which the schema carries as a timestamp default). -/
structure Reservoir where
  id : ℕ
  nom : String
  type_carburant : String
  capacite_max : ℚ
  seuil_alerte : ℚ
  created_at : ℤ
deriving DecidableEq, Repr

/-- A row of the `niveaux_quotidiens` table: the explicit daily level
record of one reservoir on one date. -/
structure NiveauQuotidien where
  reservoir_id : ℕ
  date : ℤ
  quantite_debut : ℚ
  quantite_entree : ℚ
deriving DecidableEq, Repr

/-- A row of the `ventes` table (the columns the analytics layer reads). -/
structure Vente where
  reservoir_id : ℕ
  pompiste_id : ℕ
  date : ℤ
  quantite_vendue : ℚ
  montant_total : ℚ
deriving DecidableEq, Repr

/-- A row of the `pompistes` table (the columns the scorer reads). -/
structure Pompiste where
  id : ℕ
  nom : String
  prenom : String
  statut : String
deriving DecidableEq, Repr

/-- The ledger store: the table contents visible to the analytics layer. -/
structure Ledger where
  reservoirs : List Reservoir
  niveaux : List NiveauQuotidien
  ventes : List Vente
  pompistes : List Pompiste
deriving DecidableEq, Repr

/-- `DatabaseManager.obtenir_reservoirs`: `SELECT * FROM reservoirs`. -/
def obtenir_reservoirs (L : Ledger) : List Reservoir :=
  L.reservoirs

/-- `DatabaseManager.obtenir_reservoir`:
`SELECT * FROM reservoirs WHERE id = ?`, `fetchone`. -/
def obtenir_reservoir (L : Ledger) (reservoir_id : ℕ) : Option Reservoir :=
  L.reservoirs.find? (fun r => decide (r.id = reservoir_id))

/-- `DatabaseManager.obtenir_niveau_quotidien`:
`SELECT * FROM niveaux_quotidiens WHERE reservoir_id = ? AND date = ?`,
`fetchone`. -/
def obtenir_niveau_quotidien (L : Ledger) (reservoir_id : ℕ) (date : ℤ) :
    Option NiveauQuotidien :=
  L.niveaux.find? (fun n => decide (n.reservoir_id = reservoir_id ∧ n.date = date))

/-- `DatabaseManager.obtenir_pompistes` with its default argument
`statut = 'actif'`: `SELECT * FROM pompistes WHERE statut = ?`. -/
def obtenir_pompistes (L : Ledger) : List Pompiste :=
  L.pompistes.filter (fun p => decide (p.statut = "actif"))

/-- The rows of `ventes` for one reservoir and one date
(`WHERE reservoir_id = ? AND date = ?`). -/
def ventes_jour (L : Ledger) (reservoir_id : ℕ) (date : ℤ) : List Vente :=
  L.ventes.filter (fun v => decide (v.reservoir_id = reservoir_id ∧ v.date = date))

/-- `SELECT SUM(quantite_vendue) FROM ventes WHERE reservoir_id = ? AND
date = ?`, with the callers' `row if row else 0` treatment of the NULL
an empty SUM yields (the sum of no rows and the replaced 0 coincide). -/
def total_vendu (L : Ledger) (reservoir_id : ℕ) (date : ℤ) : ℚ :=
  ((ventes_jour L reservoir_id date).map (fun v => v.quantite_vendue)).sum

/-- `SELECT AVG(montant_total / quantite_vendue) ...` over the day's
sales, with the caller's `row if row else 0` NULL treatment.  The data
model guarantees `quantite_vendue > 0` on every row, so the division is
total here. -/
def prix_moyen_jour (L : Ledger) (reservoir_id : ℕ) (date : ℤ) : ℚ :=
  let vs := ventes_jour L reservoir_id date
  if vs.length = 0 then 0
  else ((vs.map (fun v => v.montant_total / v.quantite_vendue)).sum) / vs.length

/-! ## Daily balance resolver (`src/ui/fuel_inventory.py`)

`get_previous_day_remaining_quantity` recurses one day back per call with
no bound of its own; the Python interpreter recursion limit eventually
raises `RecursionError`, which the function's `except` clause catches,
returning the plain number `0`.  The `fuel` argument is that recursion
budget; `fuel = 0` is the handler's `return 0`. -/

/-- `FuelInventory.get_previous_day_remaining_quantity`. -/
def get_previous_day_remaining_quantity (L : Ledger) (reservoir_id : ℕ) :
    ℕ → ℤ → ℚ
  | 0, _ => 0
  | fuel + 1, current_date =>
    let previous_date := current_date - 1
    match obtenir_niveau_quotidien L reservoir_id previous_date with
    | some niveau_precedent =>
      let quantite_totale_precedent :=
        niveau_precedent.quantite_debut + niveau_precedent.quantite_entree
      let total_vendu_precedent := total_vendu L reservoir_id previous_date
      max 0 (quantite_totale_precedent - total_vendu_precedent)
    | none => get_previous_day_remaining_quantity L reservoir_id fuel previous_date

/-- `FuelInventory.get_initial_quantity_for_date`: the record's
`quantite_debut` when the date has an explicit record, the recursive
carry-forward otherwise. -/
def get_initial_quantity_for_date (L : Ledger) (fuel : ℕ) (reservoir_id : ℕ)
    (date : ℤ) : ℚ :=
  match obtenir_niveau_quotidien L reservoir_id date with
  | some niveau_actuel => niveau_actuel.quantite_debut
  | none => get_previous_day_remaining_quantity L reservoir_id fuel date

/-- Modelled from the spec: `resolve_opening` as section 4.1 words it,
used only to compare the specified resolver with the one embedded from
the source.  If an explicit record exists its opening is returned;
otherwise the prior day is resolved recursively —
`total(d-1) = opening(d-1) + inbound(d-1)` (inbound 0 when the prior day
has no record), minus that prior day's sales, clamped at 0.  The same
`fuel` budget bounds the recursion. -/
def resolve_opening_spec (L : Ledger) (reservoir_id : ℕ) : ℕ → ℤ → ℚ
  | 0, _ => 0
  | fuel + 1, date =>
    match obtenir_niveau_quotidien L reservoir_id date with
    | some niveau => niveau.quantite_debut
    | none =>
      let inbound :=
        match obtenir_niveau_quotidien L reservoir_id (date - 1) with
        | some n => n.quantite_entree
        | none => 0
      let total := resolve_opening_spec L reservoir_id fuel (date - 1) + inbound
      max 0 (total - total_vendu L reservoir_id (date - 1))

/-! ## Reconciliation engine (`AnalyticsEngine._analyser_reservoir`) -/

/-- The status tiers of `_analyser_reservoir`. -/
inductive Statut where
  | excellent
  | bon
  | attention
  | critique
deriving DecidableEq, Repr

/-- The status ladder of `_analyser_reservoir` (first match wins):
below 1 percent excellent, below 2 bon, below 5 attention, else critique. -/
def statut_de (pourcentage_perte : ℚ) : Statut :=
  if pourcentage_perte < 1 then .excellent
  else if pourcentage_perte < 2 then .bon
  else if pourcentage_perte < 5 then .attention
  else .critique

/-- The dictionary `_analyser_reservoir` returns on success. -/
structure Analyse where
  quantite_debut : ℚ
  quantite_vendue : ℚ
  niveau_theorique : ℚ
  niveau_reel : ℚ
  perte_litres : ℚ
  perte_argent : ℚ
  pourcentage_perte : ℚ
  prix_moyen : ℚ
  statut : Statut
deriving DecidableEq, Repr

/-- The body of `_analyser_reservoir` once the date's level record
`niveau` is in hand: the straight-line sequence of locals of the source,
ending in the returned dictionary. -/
def analyse_de (L : Ledger) (reservoir_id : ℕ) (date : ℤ)
    (niveau : NiveauQuotidien) : Analyse :=
  let quantite_vendue := total_vendu L reservoir_id date
  let prix_moyen := prix_moyen_jour L reservoir_id date
  let quantite_debut := niveau.quantite_debut + niveau.quantite_entree
  let niveau_theorique := quantite_debut - quantite_vendue
  let niveau_reel :=
    match obtenir_niveau_quotidien L reservoir_id (date + 1) with
    | some niveau_fin => niveau_fin.quantite_debut
    | none => niveau_theorique
  let perte_litres := max 0 (niveau_theorique - niveau_reel)
  let perte_argent := perte_litres * prix_moyen
  let pourcentage_perte :=
    if quantite_debut > 0 then perte_litres / quantite_debut * 100 else 0
  { quantite_debut := quantite_debut
    quantite_vendue := quantite_vendue
    niveau_theorique := niveau_theorique
    niveau_reel := niveau_reel
    perte_litres := perte_litres
    perte_argent := perte_argent
    pourcentage_perte := pourcentage_perte
    prix_moyen := prix_moyen
    statut := statut_de pourcentage_perte }

/-- `AnalyticsEngine._analyser_reservoir`.  The `None` result stands for
both the explicit `if not niveau: return None` and the `except` handler
(the ledger reads of the embedding cannot fail).  The unused
`obtenir_reservoir` fetch of the source is dropped: its value is never
read.  `niveau_actuel` of the returned dictionary equals `niveau_reel`. -/
def analyser_reservoir (L : Ledger) (reservoir_id : ℕ) (date : ℤ) :
    Option Analyse :=
  match obtenir_niveau_quotidien L reservoir_id date with
  | none => none
  | some niveau => some (analyse_de L reservoir_id date niveau)

/-! ## Daily aggregation (`AnalyticsEngine.calculer_pertes_automatiques`) -/

/-- One entry of the `reservoirs` list of the daily report. -/
structure LigneReservoir where
  nom : String
  type_carburant : String
  perte_litres : ℚ
  perte_argent : ℚ
  pourcentage_perte : ℚ
  niveau_actuel : ℚ
  statut : Statut
deriving DecidableEq, Repr

/-- One entry of the `alertes` list of the daily report.  The source
interpolates `perte_litres` and `pourcentage_perte` into a message
string; the embedding keeps the two numbers and leaves the string
formatting to presentation. -/
structure AlerteRapport where
  reservoir : String
  type_alerte : String
  perte_litres : ℚ
  pourcentage_perte : ℚ
  severite : String
deriving DecidableEq, Repr

/-- The daily report dictionary of `calculer_pertes_automatiques`. -/
structure Resultats where
  date : ℤ
  reservoirs : List LigneReservoir
  pertes_totales_litres : ℚ
  pertes_totales_argent : ℚ
  alertes : List AlerteRapport
deriving DecidableEq, Repr

/-- The `reservoirs` entry built from one successful analysis. -/
def ligne_de (reservoir : Reservoir) (analyse : Analyse) : LigneReservoir :=
  { nom := reservoir.nom
    type_carburant := reservoir.type_carburant
    perte_litres := analyse.perte_litres
    perte_argent := analyse.perte_argent
    pourcentage_perte := analyse.pourcentage_perte
    niveau_actuel := analyse.niveau_reel
    statut := analyse.statut }

/-- The alerts one reservoir contributes: one alert when the loss
percentage exceeds 2, severity `haute` above 5 and `moyenne` otherwise. -/
def alertes_de (reservoir : Reservoir) (analyse : Analyse) : List AlerteRapport :=
  if analyse.pourcentage_perte > 2 then
    [{ reservoir := reservoir.nom
       type_alerte := "perte_significative"
       perte_litres := analyse.perte_litres
       pourcentage_perte := analyse.pourcentage_perte
       severite := if analyse.pourcentage_perte > 5 then "haute" else "moyenne" }]
  else []

/-- The body of the `for reservoir in reservoirs` loop of
`calculer_pertes_automatiques`: a skipped unit (analysis `None`) leaves
the accumulator untouched; a successful one appends its report line,
adds to both totals and appends its alerts.  (The source also mirrors
each alert into the database through `creer_alerte`; the embedding keeps
the report's copy.) -/
def traiter_reservoir (L : Ledger) (date : ℤ) (resultats : Resultats)
    (reservoir : Reservoir) : Resultats :=
  match analyser_reservoir L reservoir.id date with
  | none => resultats
  | some analyse =>
    { resultats with
      reservoirs := resultats.reservoirs ++ [ligne_de reservoir analyse]
      pertes_totales_litres := resultats.pertes_totales_litres + analyse.perte_litres
      pertes_totales_argent := resultats.pertes_totales_argent + analyse.perte_argent
      alertes := resultats.alertes ++ alertes_de reservoir analyse }

/-- `AnalyticsEngine.calculer_pertes_automatiques` (the `date` argument
is always supplied here; the source defaults it to the wall clock). -/
def calculer_pertes_automatiques (L : Ledger) (date : ℤ) : Resultats :=
  (obtenir_reservoirs L).foldl (traiter_reservoir L date)
    { date := date
      reservoirs := []
      pertes_totales_litres := 0
      pertes_totales_argent := 0
      alertes := [] }

/-! ## Period aggregation (`AnalyticsEngine._calculer_pertes_periode`) -/

/-- The `while current_date <= fin` loop of `_calculer_pertes_periode`,
advancing one day per iteration and accumulating both totals of the
daily report. -/
def pertes_periode_boucle (L : Ledger) (fin : ℤ) (current_date : ℤ)
    (acc_litres acc_argent : ℚ) : ℚ × ℚ :=
  if current_date ≤ fin then
    let pertes_jour := calculer_pertes_automatiques L current_date
    pertes_periode_boucle L fin (current_date + 1)
      (acc_litres + pertes_jour.pertes_totales_litres)
      (acc_argent + pertes_jour.pertes_totales_argent)
  else (acc_litres, acc_argent)
termination_by (fin + 1 - current_date).toNat
decreasing_by
  simp_wf
  omega

/-- `AnalyticsEngine._calculer_pertes_periode`: total loss volume and
loss value over `[date_debut, date_fin]`. -/
def calculer_pertes_periode (L : Ledger) (date_debut date_fin : ℤ) : ℚ × ℚ :=
  pertes_periode_boucle L date_fin date_debut 0 0

/-- The calendar dates of `[date_debut, date_fin]`, in loop order. -/
def dates_periode (date_debut date_fin : ℤ) : List ℤ :=
  (List.range (date_fin + 1 - date_debut).toNat).map (fun i : ℕ => date_debut + (i : ℤ))

/-! ## Forecasting (`AnalyticsEngine.predire_stock`)

The source reads the wall clock; the embedding takes `today` as an
argument.  The SQL window is `date >= today - 30 AND date <= today`,
grouped by date. -/

/-- The window rows: sales of the reservoir with
`date_debut <= date <= date_fin`. -/
def ventes_fenetre (L : Ledger) (reservoir_id : ℕ) (date_debut date_fin : ℤ) :
    List Vente :=
  L.ventes.filter (fun v =>
    decide (v.reservoir_id = reservoir_id ∧ date_debut ≤ v.date ∧ v.date ≤ date_fin))

/-- The distinct sale dates of the window (the `GROUP BY date` keys). -/
def jours_avec_ventes (L : Ledger) (reservoir_id : ℕ) (date_debut date_fin : ℤ) :
    List ℤ :=
  ((ventes_fenetre L reservoir_id date_debut date_fin).map (fun v => v.date)).dedup

/-- The `historique` rows of `predire_stock`: one `(date, vente_jour)`
pair per distinct sale date of the window, `vente_jour` the group's
`SUM(quantite_vendue)`. -/
def historique_ventes (L : Ledger) (reservoir_id : ℕ) (date_debut date_fin : ℤ) :
    List (ℤ × ℚ) :=
  let fenetre := ventes_fenetre L reservoir_id date_debut date_fin
  (jours_avec_ventes L reservoir_id date_debut date_fin).map (fun d =>
    (d, ((fenetre.filter (fun v => decide (v.date = d))).map
          (fun v => v.quantite_vendue)).sum))

/-- One entry of the `predictions` list. -/
structure PredictionJour where
  date : ℤ
  niveau_predit : ℚ
  pourcentage : ℚ
deriving DecidableEq, Repr

/-- The `for jour in range(jours)` loop of `predire_stock`: the level
drops by the daily mean each step; each step records the clamped level
and capacity percentage; the first step whose level reaches 0 fixes the
depletion date. -/
def predictions_boucle (capacite_max moyenne : ℚ) (date_future : ℤ)
    (niveau : ℚ) (date_epuisement : Option ℤ) :
    ℕ → List PredictionJour × Option ℤ
  | 0 => ([], date_epuisement)
  | jours + 1 =>
    let niveau := niveau - moyenne
    let entree : PredictionJour :=
      { date := date_future
        niveau_predit := max 0 niveau
        pourcentage := max 0 (niveau / capacite_max * 100) }
    let date_epuisement :=
      if niveau ≤ 0 ∧ date_epuisement = none then some date_future
      else date_epuisement
    let suite := predictions_boucle capacite_max moyenne (date_future + 1)
      niveau date_epuisement jours
    (entree :: suite.1, suite.2)

/-- The dictionary `predire_stock` returns on success.  `jours_restants`
is `none` where the source returns `float('inf')`. -/
structure Prediction where
  reservoir : String
  niveau_actuel : ℚ
  capacite_max : ℚ
  vente_moyenne_jour : ℚ
  jours_restants : Option ℤ
  date_epuisement : Option ℤ
  predictions : List PredictionJour
  recommandation : String
deriving DecidableEq, Repr

/-- The outcomes of `predire_stock`: the three error dictionaries the
source can return (insufficient history; unknown current level; the
`except` handler firing on a missing reservoir row) and success. -/
inductive ResultatPrediction where
  | erreur_historique
  | erreur_niveau_inconnu
  | erreur_reservoir
  | ok (p : Prediction)
deriving DecidableEq, Repr

/-- `AnalyticsEngine._generer_recommandation` (emoji prefixes of the
source strings dropped). -/
def generer_recommandation : Option ℤ → String
  | some jours_restants =>
    if jours_restants < 3 then "URGENT: Commander immediatement"
    else if jours_restants < 7 then "ATTENTION: Commander cette semaine"
    else if jours_restants < 14 then "INFO: Planifier commande prochainement"
    else "OK: Stock suffisant"
  | none => "OK: Stock suffisant"

/-- `AnalyticsEngine.predire_stock`.  The guards fire in source order:
fewer than 3 history rows first, then the missing current-level record,
then (through the `except` handler, once a reservoir field is touched)
the missing reservoir row. -/
def predire_stock (L : Ledger) (today : ℤ) (reservoir_id : ℕ) (jours : ℕ) :
    ResultatPrediction :=
  let date_fin := today
  let date_debut := today - 30
  let historique := historique_ventes L reservoir_id date_debut date_fin
  if historique.length < 3 then .erreur_historique
  else
    let ventes_moyennes := (historique.map (fun h => h.2)).sum / historique.length
    match obtenir_niveau_quotidien L reservoir_id date_fin with
    | none => .erreur_niveau_inconnu
    | some niveau_actuel_row =>
      match obtenir_reservoir L reservoir_id with
      | none => .erreur_reservoir
      | some reservoir =>
        let niveau_actuel :=
          niveau_actuel_row.quantite_debut + niveau_actuel_row.quantite_entree
        let boucle := predictions_boucle reservoir.capacite_max ventes_moyennes
          (today + 1) niveau_actuel none jours
        let jours_restants : Option ℤ :=
          if ventes_moyennes > 0 then some (Int.ceil (niveau_actuel / ventes_moyennes))
          else none
        .ok { reservoir := reservoir.nom
              niveau_actuel := niveau_actuel
              capacite_max := reservoir.capacite_max
              vente_moyenne_jour := ventes_moyennes
              jours_restants := jours_restants
              date_epuisement := boucle.2
              predictions := boucle.1
              recommandation := generer_recommandation jours_restants }

/-! ## Performance scorer (`AnalyticsEngine.analyser_performance_pompistes`)

The month window `[year-month-01, next-month-01)` reaches the embedding
as the half-open day interval `[date_debut, date_fin)`; the string
arithmetic that builds the two boundary dates is presentation. -/

/-- The badges of `_attribuer_badge` (gold, silver, bronze, star and
thumbs-up emoji of the source). -/
inductive Badge where
  | gold
  | silver
  | bronze
  | star
  | thumbs
deriving DecidableEq, Repr

/-- `AnalyticsEngine._attribuer_badge`: ranks 1 to 3 get the medals;
after those, a rank within the top quarter (`rang <= total * 0.25`,
no rounding) gets a star, anything else the thumbs-up default. -/
def attribuer_badge (rang total : ℕ) : Badge :=
  if rang = 1 then .gold
  else if rang = 2 then .silver
  else if rang = 3 then .bronze
  else if (rang : ℚ) ≤ (total : ℚ) * (25 / 100) then .star
  else .thumbs

/-- Modelled from the spec: the badge rule of section 4.5, which rounds
the quarter up — star whenever `rank <= ceil(0.25 * N)`.  Kept only to
compare the specified rule with `attribuer_badge` as embedded from the
source. -/
def attribuer_badge_spec (rang total : ℕ) : Badge :=
  if rang = 1 then .gold
  else if rang = 2 then .silver
  else if rang = 3 then .bronze
  else if (rang : ℤ) ≤ Int.ceil ((total : ℚ) * (25 / 100)) then .star
  else .thumbs

/-- One entry of the ranking.  `rang` and `badge` hold their
pre-assignment placeholders (0 and thumbs) until the ranking pass
overwrites them, mirroring the two-phase construction of the source. -/
structure Performance where
  pompiste_id : ℕ
  nom_complet : String
  nb_ventes : ℕ
  total_litres : ℚ
  total_montant : ℚ
  vente_moyenne : ℚ
  efficacite : ℚ
  rang : ℕ
  badge : Badge
deriving DecidableEq, Repr

/-- The month's sales of one attendant:
`WHERE pompiste_id = ? AND date >= ? AND date < ?`. -/
def ventes_pompiste (L : Ledger) (pompiste_id : ℕ) (date_debut date_fin : ℤ) :
    List Vente :=
  L.ventes.filter (fun v =>
    decide (v.pompiste_id = pompiste_id ∧ date_debut ≤ v.date ∧ v.date < date_fin))

/-- Python's `round(x, 1)`: one decimal.  (`round` here rounds halves
up where Python rounds them to even; no claim depends on the half-way
case.) -/
def arrondir_1 (x : ℚ) : ℚ :=
  (round (x * 10) : ℤ) / 10

/-- `AnalyticsEngine._calculer_score_efficacite`: capped thirds for
sale count, total amount and mean amount, rounded to one decimal. -/
def calculer_score_efficacite (nb_ventes : ℕ) (total_montant vente_moyenne : ℚ) : ℚ :=
  arrondir_1 (min 40 ((nb_ventes : ℚ) / 30 * 40)
    + min 40 (total_montant / 1000000 * 40)
    + min 20 (vente_moyenne / 50000 * 20))

/-- The per-attendant block of the scorer's loop: the aggregate SQL row
(`COUNT`, two `SUM`s, `AVG`) followed by the `nb_ventes > 0` guard — an
attendant with no sale in the window contributes nothing. -/
def performance_de (L : Ledger) (date_debut date_fin : ℤ) (p : Pompiste) :
    Option Performance :=
  let ventes := ventes_pompiste L p.id date_debut date_fin
  if ventes.length ≠ 0 then
    let total_montant := (ventes.map (fun v => v.montant_total)).sum
    let vente_moyenne := total_montant / ventes.length
    some { pompiste_id := p.id
           nom_complet := p.prenom ++ " " ++ p.nom
           nb_ventes := ventes.length
           total_litres := (ventes.map (fun v => v.quantite_vendue)).sum
           total_montant := total_montant
           vente_moyenne := vente_moyenne
           efficacite := calculer_score_efficacite ventes.length total_montant vente_moyenne
           rang := 0
           badge := .thumbs }
  else none

/-- Insertion step of the sort below: the new entry moves past exactly
the existing entries with a strictly larger amount, so equal amounts
keep their original order. -/
def inserer_performance (p : Performance) : List Performance → List Performance
  | [] => [p]
  | q :: reste =>
    if p.total_montant < q.total_montant then q :: inserer_performance p reste
    else p :: q :: reste

/-- `performances.sort(key=total_montant, reverse=True)` of the source:
a stable descending sort by `total_montant`.  Any two stable sorts agree
extensionally, so this insertion sort computes exactly the list Python's
stable sort produces. -/
def trier_performances : List Performance → List Performance
  | [] => []
  | p :: reste => inserer_performance p (trier_performances reste)

/-- The `for i, perf in enumerate(performances, 1)` pass: entry `i` of
the sorted list receives rank `i` and the badge for rank `i` out of
`total`. -/
def ajouter_rangs (total : ℕ) : ℕ → List Performance → List Performance
  | _, [] => []
  | i, p :: reste =>
    { p with rang := i, badge := attribuer_badge i total } :: ajouter_rangs total (i + 1) reste

/-- `AnalyticsEngine.analyser_performance_pompistes`: aggregate the
month's sales per active attendant, keep those with at least one sale,
sort descending by amount, then assign ranks and badges against the
kept list's length. -/
def analyser_performance_pompistes (L : Ledger) (date_debut date_fin : ℤ) :
    List Performance :=
  let performances :=
    (obtenir_pompistes L).filterMap (performance_de L date_debut date_fin)
  let performances := trier_performances performances
  ajouter_rangs performances.length 1 performances

/-! ## Concrete ledgers used by counterexamples and witnesses -/

/-- One reservoir; day 9 has an explicit record (5000 opening, 1000
inbound) and 2000 sold; day 10 has no record. -/
def ledgerJour9 : Ledger :=
  { reservoirs := [⟨1, "Cuve A", "essence", 10000, 20, 1⟩]
    niveaux := [⟨1, 9, 5000, 1000⟩]
    ventes := [⟨1, 1, 9, 2000, 2000000⟩]
    pompistes := [] }

/-- One reservoir; the only record sits on day 8 (5000 opening, 1000
inbound); 2000 sold on day 8, 500 sold on the record-less day 9. -/
def ledgerJour8 : Ledger :=
  { reservoirs := [⟨1, "Cuve A", "essence", 10000, 20, 1⟩]
    niveaux := [⟨1, 8, 5000, 1000⟩]
    ventes := [⟨1, 1, 8, 2000, 2000000⟩, ⟨1, 1, 9, 500, 500000⟩]
    pompistes := [] }

/-- A reservoir created on day 10 with an empty ledger: no level record
is reachable from any date. -/
def ledgerVide : Ledger :=
  { reservoirs := [⟨1, "Cuve A", "essence", 10000, 20, 10⟩]
    niveaux := []
    ventes := []
    pompistes := [] }

/-- `ledgerVide` plus a single record seven days before the
reservoir's creation date. -/
def ledgerAvantCreation : Ledger :=
  { reservoirs := [⟨1, "Cuve A", "essence", 10000, 20, 10⟩]
    niveaux := [⟨1, 3, 7777, 0⟩]
    ventes := []
    pompistes := [] }

/-- Two reservoirs on day 10: reservoir 1 has no record (its analysis
fails), reservoir 2 has records on days 10 and 11 and one sale, losing
10 of its 100 litres. -/
def ledgerDeuxCuves : Ledger :=
  { reservoirs := [⟨1, "Cuve A", "essence", 10000, 20, 1⟩,
                   ⟨2, "Cuve B", "gasoil", 10000, 20, 1⟩]
    niveaux := [⟨2, 10, 100, 0⟩, ⟨2, 11, 40, 0⟩]
    ventes := [⟨2, 1, 10, 50, 50000⟩]
    pompistes := [] }

/-- `ledgerDeuxCuves` without the failing reservoir. -/
def ledgerUneCuve : Ledger :=
  { reservoirs := [⟨2, "Cuve B", "gasoil", 10000, 20, 1⟩]
    niveaux := [⟨2, 10, 100, 0⟩, ⟨2, 11, 40, 0⟩]
    ventes := [⟨2, 1, 10, 50, 50000⟩]
    pompistes := [] }

/-- Sales on only two distinct days of the trailing window ending on
day 31: too little history for a forecast. -/
def ledgerDeuxJours : Ledger :=
  { reservoirs := [⟨1, "Cuve A", "essence", 10000, 20, 1⟩]
    niveaux := [⟨1, 31, 500, 0⟩]
    ventes := [⟨1, 1, 5, 100, 100000⟩, ⟨1, 1, 6, 100, 100000⟩]
    pompistes := [] }

/-- Thirteen active attendants, each with one sale in `[1, 31)`, with
amounts strictly decreasing in the attendant's number, so attendant `i`
lands at rank `i`. -/
def ledgerTreize : Ledger :=
  { reservoirs := [⟨1, "Cuve A", "essence", 10000, 20, 1⟩]
    niveaux := []
    ventes := (List.range 13).map (fun i =>
      ⟨1, i + 1, 5, 10, 1400 - 100 * (i + 1 : ℚ)⟩)
    pompistes := (List.range 13).map (fun i =>
      ⟨i + 1, "Nom", "Prenom", "actif"⟩) }

/-- Four active attendants, each with one sale in `[1, 31)`, amounts
strictly decreasing in the attendant's number. -/
def ledgerQuatre : Ledger :=
  { reservoirs := [⟨1, "Cuve A", "essence", 10000, 20, 1⟩]
    niveaux := []
    ventes := [⟨1, 1, 5, 10, 400⟩, ⟨1, 2, 5, 10, 300⟩,
               ⟨1, 3, 5, 10, 200⟩, ⟨1, 4, 5, 10, 100⟩]
    pompistes := [⟨1, "Nom", "Prenom", "actif"⟩, ⟨2, "Nom", "Prenom", "actif"⟩,
                  ⟨3, "Nom", "Prenom", "actif"⟩, ⟨4, "Nom", "Prenom", "actif"⟩] }

/-! ## Helper lemmas -/

lemma analyse_de_quantite_debut (L : Ledger) (rid : ℕ) (d : ℤ) (niveau : NiveauQuotidien) :
    (analyse_de L rid d niveau).quantite_debut =
      niveau.quantite_debut + niveau.quantite_entree := rfl

lemma analyse_de_quantite_vendue (L : Ledger) (rid : ℕ) (d : ℤ) (niveau : NiveauQuotidien) :
    (analyse_de L rid d niveau).quantite_vendue = total_vendu L rid d := rfl

lemma analyse_de_niveau_theorique (L : Ledger) (rid : ℕ) (d : ℤ) (niveau : NiveauQuotidien) :
    (analyse_de L rid d niveau).niveau_theorique =
      (niveau.quantite_debut + niveau.quantite_entree) - total_vendu L rid d := rfl

lemma analyse_de_niveau_reel (L : Ledger) (rid : ℕ) (d : ℤ) (niveau : NiveauQuotidien) :
    (analyse_de L rid d niveau).niveau_reel =
      match obtenir_niveau_quotidien L rid (d + 1) with
      | some niveau_fin => niveau_fin.quantite_debut
      | none => (analyse_de L rid d niveau).niveau_theorique := rfl

lemma analyse_de_perte_litres (L : Ledger) (rid : ℕ) (d : ℤ) (niveau : NiveauQuotidien) :
    (analyse_de L rid d niveau).perte_litres =
      max 0 ((analyse_de L rid d niveau).niveau_theorique -
        (analyse_de L rid d niveau).niveau_reel) := rfl

lemma analyse_de_pourcentage_perte (L : Ledger) (rid : ℕ) (d : ℤ) (niveau : NiveauQuotidien) :
    (analyse_de L rid d niveau).pourcentage_perte =
      if (analyse_de L rid d niveau).quantite_debut > 0
      then (analyse_de L rid d niveau).perte_litres /
        (analyse_de L rid d niveau).quantite_debut * 100
      else 0 := rfl

lemma analyser_reservoir_some (L : Ledger) (rid : ℕ) (d : ℤ) (n : NiveauQuotidien)
    (hn : obtenir_niveau_quotidien L rid d = some n) :
    analyser_reservoir L rid d = some (analyse_de L rid d n) := by
  unfold analyser_reservoir
  rw [hn]

lemma analyser_reservoir_none (L : Ledger) (rid : ℕ) (d : ℤ)
    (hn : obtenir_niveau_quotidien L rid d = none) :
    analyser_reservoir L rid d = none := by
  unfold analyser_reservoir
  rw [hn]

/-! ## Claims C1 to C3: reconciliation input and the carry-forward walk -/

/-- C1 (counterexample): on a ledger whose reservoir has an explicit
record only on day 9, the resolver would carry 4000 litres forward into
day 10, yet `_analyser_reservoir` returns `None` for day 10 — the
reservoir/date without an explicit record is skipped, no reconciliation
result is produced. -/
theorem claim_C1_contre :
    obtenir_niveau_quotidien ledgerJour9 1 10 = none ∧
    get_initial_quantity_for_date ledgerJour9 5 1 10 = 4000 ∧
    analyser_reservoir ledgerJour9 1 10 = none := by
  refine ⟨by with_unfolding_all rfl, by with_unfolding_all rfl, by with_unfolding_all rfl⟩

/-- C1 (amended): reconciliation computes `quantite_debut` as the
resolved opening plus the date's inbound quantity only because an
explicit record is required to exist — on such a date the resolver
returns exactly the record's opening, so
`quantite_debut = resolve_opening + inbound`.  Dates without an explicit
record are skipped (see the counterexample). -/
theorem claim_C1 (L : Ledger) (reservoir_id : ℕ) (date : ℤ) (fuel : ℕ)
    (n : NiveauQuotidien)
    (hn : obtenir_niveau_quotidien L reservoir_id date = some n) :
    ∃ a, analyser_reservoir L reservoir_id date = some a ∧
      a.quantite_debut =
        get_initial_quantity_for_date L fuel reservoir_id date + n.quantite_entree := by
  refine ⟨analyse_de L reservoir_id date n, analyser_reservoir_some L reservoir_id date n hn, ?_⟩
  rw [analyse_de_quantite_debut]
  unfold get_initial_quantity_for_date
  rw [hn]

/-- C1 (witness): on the day-9 ledger, reconciling day 9 itself returns
a result whose starting quantity is the resolved opening plus the 1000
litres of inbound fuel. -/
theorem claim_C1_temoin :
    ∃ a, analyser_reservoir ledgerJour9 1 9 = some a ∧
      a.quantite_debut = get_initial_quantity_for_date ledgerJour9 5 1 9 + 1000 :=
  claim_C1 ledgerJour9 1 9 5 ⟨1, 9, 5000, 1000⟩ (by with_unfolding_all rfl)

/-- C2 (counterexample): sales recorded on a day that has no explicit
level record are ignored by the carry-forward.  The only record is on
day 8 (5000 opening, 1000 inbound, 2000 sold); day 9 has 500 sold and no
record.  The source resolver gives day 10 the 4000 litres left on day 8,
while the specified recursion (`resolve_opening_spec`) also subtracts
day 9's sales and yields 3500. -/
theorem claim_C2_contre :
    get_initial_quantity_for_date ledgerJour8 5 1 10 = 4000 ∧
    resolve_opening_spec ledgerJour8 1 5 10 = 3500 ∧
    get_initial_quantity_for_date ledgerJour8 5 1 10 ≠ resolve_opening_spec ledgerJour8 1 5 10 := by
  refine ⟨by with_unfolding_all rfl, by with_unfolding_all rfl, ?_⟩
  intro h
  rw [show get_initial_quantity_for_date ledgerJour8 5 1 10 = 4000 from by with_unfolding_all rfl,
    show resolve_opening_spec ledgerJour8 1 5 10 = 3500 from by with_unfolding_all rfl] at h
  norm_num at h

/-- C2 (amended): for a date with no explicit record whose previous day
does carry an explicit record, the resolver returns
`max 0 (opening(d-1) + inbound(d-1) - sold(d-1))`, matching the claim;
when the previous day also lacks a record the walk recurses to the
nearest prior day with an explicit record and ignores any sales logged
on the record-less days in between (see the counterexample). -/
theorem claim_C2 (L : Ledger) (reservoir_id : ℕ) (date : ℤ) (fuel : ℕ)
    (n : NiveauQuotidien)
    (h0 : obtenir_niveau_quotidien L reservoir_id date = none)
    (h1 : obtenir_niveau_quotidien L reservoir_id (date - 1) = some n) :
    get_initial_quantity_for_date L (fuel + 1) reservoir_id date =
      max 0 (n.quantite_debut + n.quantite_entree - total_vendu L reservoir_id (date - 1)) := by
  unfold get_initial_quantity_for_date
  rw [h0]
  unfold get_previous_day_remaining_quantity
  simp only [h1]

/-- C2 (witness): the claim's own scenario — day 10 has no record, day 9
had opening 5000, inbound 1000 and 2000 sold — resolves to 4000. -/
theorem claim_C2_temoin :
    get_initial_quantity_for_date ledgerJour9 5 1 10 =
      max 0 (5000 + 1000 - total_vendu ledgerJour9 1 9) ∧
    get_initial_quantity_for_date ledgerJour9 5 1 10 = 4000 := by
  constructor
  · have h := claim_C2 ledgerJour9 1 10 4 ⟨1, 9, 5000, 1000⟩
      (by with_unfolding_all rfl) (by with_unfolding_all rfl)
    simpa using h
  · with_unfolding_all rfl

set_option maxRecDepth 40000 in
/-- C3 (counterexample): the carry-forward walk does not stop at the
reservoir's creation date, and an unreachable seed is not a typed
failure.  Both ledgers hold one reservoir created on day 10;
`ledgerAvantCreation` additionally holds a record seven days before
creation.  The walk started at day 10 reads that pre-creation record
(7777), and on the recordless ledger it returns the plain value 0 —
indistinguishable from an empty tank — once the recursion budget is
spent. -/
theorem claim_C3_contre :
    ledgerAvantCreation.reservoirs = ledgerVide.reservoirs ∧
    get_initial_quantity_for_date ledgerAvantCreation 1000 1 10 = 7777 ∧
    get_initial_quantity_for_date ledgerVide 1000 1 10 = 0 := by
  refine ⟨by with_unfolding_all rfl, by with_unfolding_all rfl, by with_unfolding_all rfl⟩

/-- C3 (amended): the recursive lookback is bounded only by the
interpreter's recursion budget, modelled by `fuel`; when no level record
of the reservoir is reachable, the walk burns the whole budget and the
exception handler returns the untyped default 0 — not a typed failure,
and with no regard to the reservoir's creation date. -/
theorem claim_C3 (L : Ledger) (reservoir_id : ℕ) (fuel : ℕ) (date : ℤ)
    (h : ∀ n ∈ L.niveaux, n.reservoir_id ≠ reservoir_id) :
    get_previous_day_remaining_quantity L reservoir_id fuel date = 0 := by
  induction fuel generalizing date with
  | zero => rfl
  | succ fuel ih =>
    have hnil : obtenir_niveau_quotidien L reservoir_id (date - 1) = none := by
      unfold obtenir_niveau_quotidien
      rw [List.find?_eq_none]
      intro n hn
      simp [h n hn]
    unfold get_previous_day_remaining_quantity
    simp only [hnil]
    exact ih (date - 1)

/-- C3 (witness): the empty ledger exhausts a 1000-deep budget and the
walk returns 0. -/
theorem claim_C3_temoin :
    get_previous_day_remaining_quantity ledgerVide 1 1000 10 = 0 :=
  claim_C3 ledgerVide 1 1000 10 (by intro n hn; simp [ledgerVide] at hn)

/-! ## Claims C9 and C4: the actual-remaining fallback and the loss percentage -/

/-- C9 (confirmed): the actual end-of-day level of a reconciliation is
the opening quantity of the next day's explicit record when one exists;
only without such a record does it fall back to the theoretical
remaining level, which forces the loss volume to 0. -/
theorem claim_C9 (L : Ledger) (reservoir_id : ℕ) (date : ℤ) (n : NiveauQuotidien)
    (hn : obtenir_niveau_quotidien L reservoir_id date = some n) :
    ∃ a, analyser_reservoir L reservoir_id date = some a ∧
      (∀ m, obtenir_niveau_quotidien L reservoir_id (date + 1) = some m →
        a.niveau_reel = m.quantite_debut) ∧
      (obtenir_niveau_quotidien L reservoir_id (date + 1) = none →
        a.niveau_reel = a.niveau_theorique ∧ a.perte_litres = 0) := by
  refine ⟨analyse_de L reservoir_id date n,
    analyser_reservoir_some L reservoir_id date n hn, ?_, ?_⟩
  · intro m hm
    rw [analyse_de_niveau_reel, hm]
  · intro hm
    have hreel : (analyse_de L reservoir_id date n).niveau_reel =
        (analyse_de L reservoir_id date n).niveau_theorique := by
      rw [analyse_de_niveau_reel, hm]
    refine ⟨hreel, ?_⟩
    rw [analyse_de_perte_litres, hreel]
    simp

/-- C9 (witness): on the two-reservoir ledger, reservoir 2's day-10
reconciliation takes its actual level 40 from the day-11 record. -/
theorem claim_C9_temoin :
    ∃ a, analyser_reservoir ledgerDeuxCuves 2 10 = some a ∧
      (∀ m, obtenir_niveau_quotidien ledgerDeuxCuves 2 (10 + 1) = some m →
        a.niveau_reel = m.quantite_debut) ∧
      (obtenir_niveau_quotidien ledgerDeuxCuves 2 (10 + 1) = none →
        a.niveau_reel = a.niveau_theorique ∧ a.perte_litres = 0) :=
  claim_C9 ledgerDeuxCuves 2 10 ⟨2, 10, 100, 0⟩ (by with_unfolding_all rfl)

/-- C4 (confirmed): with non-negative opening, inbound, total sold and
actual remaining quantities, the loss percentage is 0 when the starting
quantity is not positive, and otherwise equals
`100 * loss / starting quantity` and lies within `[0, 100]`. -/
theorem claim_C4 (L : Ledger) (reservoir_id : ℕ) (date : ℤ) (n : NiveauQuotidien)
    (a : Analyse)
    (hn : obtenir_niveau_quotidien L reservoir_id date = some n)
    (ha : analyser_reservoir L reservoir_id date = some a)
    (hd : 0 ≤ n.quantite_debut) (he : 0 ≤ n.quantite_entree)
    (hv : 0 ≤ total_vendu L reservoir_id date)
    (hr : ∀ m, obtenir_niveau_quotidien L reservoir_id (date + 1) = some m →
      0 ≤ m.quantite_debut) :
    (a.quantite_debut ≤ 0 → a.pourcentage_perte = 0) ∧
    (0 < a.quantite_debut →
      a.pourcentage_perte = 100 * a.perte_litres / a.quantite_debut ∧
      0 ≤ a.pourcentage_perte ∧ a.pourcentage_perte ≤ 100) := by
  rw [analyser_reservoir_some L reservoir_id date n hn] at ha
  have ha' : a = analyse_de L reservoir_id date n := by
    injection ha.symm
  subst ha'
  set A := analyse_de L reservoir_id date n with hA
  have hqd : A.quantite_debut = n.quantite_debut + n.quantite_entree :=
    analyse_de_quantite_debut L reservoir_id date n
  have hperte_nonneg : 0 ≤ A.perte_litres := by
    rw [analyse_de_perte_litres]
    exact le_max_left 0 _
  have hperte_le : A.perte_litres ≤ A.quantite_debut := by
    rw [analyse_de_perte_litres]
    have htheo : A.niveau_theorique = A.quantite_debut - total_vendu L reservoir_id date := by
      rw [analyse_de_niveau_theorique, hqd]
    rcases hm : obtenir_niveau_quotidien L reservoir_id (date + 1) with _ | m
    · have hreel : A.niveau_reel = A.niveau_theorique := by
        rw [analyse_de_niveau_reel, hm]
      rw [hreel]
      simp only [sub_self, max_self, hqd]
      · simpa [hqd] using add_nonneg hd he
    · have hreel : A.niveau_reel = m.quantite_debut := by
        rw [analyse_de_niveau_reel, hm]
      have hm0 : 0 ≤ m.quantite_debut := hr m hm
      have hqd0 : 0 ≤ A.quantite_debut := by
        rw [hqd]; exact add_nonneg hd he
      rw [hreel]
      have : A.niveau_theorique - m.quantite_debut ≤ A.quantite_debut := by
        rw [htheo]; linarith
      exact max_le hqd0 this
  constructor
  · intro hle
    rw [analyse_de_pourcentage_perte]
    have : ¬ (A.quantite_debut > 0) := not_lt.mpr hle
    rw [if_neg this]
  · intro hpos
    have hpct : A.pourcentage_perte = A.perte_litres / A.quantite_debut * 100 := by
      rw [analyse_de_pourcentage_perte, if_pos hpos]
    refine ⟨?_, ?_, ?_⟩
    · rw [hpct]; ring
    · rw [hpct]; positivity
    · rw [hpct]
      have hdiv : A.perte_litres / A.quantite_debut ≤ 1 :=
        (div_le_one hpos).mpr hperte_le
      linarith

/-- C4 (witness): reservoir 2 of the two-reservoir ledger on day 10 —
opening 100, no inbound, 50 sold, measured remaining 40 — has a loss
percentage of 10, inside `[0, 100]`. -/
theorem claim_C4_temoin :
    ∃ a, analyser_reservoir ledgerDeuxCuves 2 10 = some a ∧
      (0 < a.quantite_debut →
        a.pourcentage_perte = 100 * a.perte_litres / a.quantite_debut ∧
        0 ≤ a.pourcentage_perte ∧ a.pourcentage_perte ≤ 100) := by
  refine ⟨analyse_de ledgerDeuxCuves 2 10 ⟨2, 10, 100, 0⟩,
    by with_unfolding_all rfl, ?_⟩
  have h := claim_C4 ledgerDeuxCuves 2 10 ⟨2, 10, 100, 0⟩
    (analyse_de ledgerDeuxCuves 2 10 ⟨2, 10, 100, 0⟩)
    (by with_unfolding_all rfl) (by with_unfolding_all rfl)
    (by norm_num) (by norm_num)
    (by rw [show total_vendu ledgerDeuxCuves 2 10 = 50 from by with_unfolding_all rfl]; norm_num)
    (by intro m hm
        rw [show obtenir_niveau_quotidien ledgerDeuxCuves 2 (10 + 1) = some ⟨2, 11, 40, 0⟩
          from by with_unfolding_all rfl] at hm
        injection hm with hm'
        rw [← hm']
        norm_num)
  exact h.2

/-! ## Claim C6: best-effort accumulation over reservoirs -/

/-- The loss volume one reservoir contributes to the daily totals:
nothing when its analysis fails. -/
def perte_litres_unite (L : Ledger) (date : ℤ) (r : Reservoir) : ℚ :=
  match analyser_reservoir L r.id date with
  | none => 0
  | some a => a.perte_litres

/-- The loss value one reservoir contributes to the daily totals:
nothing when its analysis fails. -/
def perte_argent_unite (L : Ledger) (date : ℤ) (r : Reservoir) : ℚ :=
  match analyser_reservoir L r.id date with
  | none => 0
  | some a => a.perte_argent

/-- The report line one reservoir contributes, if any. -/
def ligne_unite (L : Ledger) (date : ℤ) (r : Reservoir) : Option LigneReservoir :=
  (analyser_reservoir L r.id date).map (ligne_de r)

/-- The alerts one reservoir contributes: none when its analysis fails. -/
def alertes_unite (L : Ledger) (date : ℤ) (r : Reservoir) : List AlerteRapport :=
  match analyser_reservoir L r.id date with
  | none => []
  | some a => alertes_de r a

lemma foldl_traiter_reservoir (L : Ledger) (date : ℤ) (rs : List Reservoir) :
    ∀ acc : Resultats,
      rs.foldl (traiter_reservoir L date) acc =
        { date := acc.date
          reservoirs := acc.reservoirs ++ rs.filterMap (ligne_unite L date)
          pertes_totales_litres :=
            acc.pertes_totales_litres + (rs.map (perte_litres_unite L date)).sum
          pertes_totales_argent :=
            acc.pertes_totales_argent + (rs.map (perte_argent_unite L date)).sum
          alertes := acc.alertes ++ (rs.map (alertes_unite L date)).flatten } := by
  induction rs with
  | nil => intro acc; simp
  | cons r rs ih =>
    intro acc
    rw [List.foldl_cons, ih]
    unfold traiter_reservoir perte_litres_unite perte_argent_unite ligne_unite alertes_unite
    cases h : analyser_reservoir L r.id date with
    | none => simp [h]
    | some a => simp [h, add_assoc]

/-- C6 (amended): a unit whose analysis fails is skipped and the
remaining units still run — the totals are the sums of the per-unit
contributions, with 0 for every failed unit, and the report lines are
exactly those of the successful units.  The report, however, carries no
note of which units failed (see the counterexample). -/
theorem claim_C6 (L : Ledger) (date : ℤ) :
    (calculer_pertes_automatiques L date).pertes_totales_litres =
      ((obtenir_reservoirs L).map (perte_litres_unite L date)).sum ∧
    (calculer_pertes_automatiques L date).pertes_totales_argent =
      ((obtenir_reservoirs L).map (perte_argent_unite L date)).sum ∧
    (calculer_pertes_automatiques L date).reservoirs =
      (obtenir_reservoirs L).filterMap (ligne_unite L date) := by
  unfold calculer_pertes_automatiques
  rw [foldl_traiter_reservoir]
  simp

/-- C6 (counterexample): the report does not note which units failed.
With reservoir 1 failing (no record for day 10) and reservoir 2
succeeding, the whole report is identical to the one computed on the
ledger from which the failing reservoir is absent altogether — the
failure leaves no trace, while reservoir 2's 10 litres of loss are
still totalled. -/
theorem claim_C6_contre :
    analyser_reservoir ledgerDeuxCuves 1 10 = none ∧
    calculer_pertes_automatiques ledgerDeuxCuves 10 =
      calculer_pertes_automatiques ledgerUneCuve 10 ∧
    (calculer_pertes_automatiques ledgerDeuxCuves 10).pertes_totales_litres = 10 := by
  refine ⟨by with_unfolding_all rfl, by with_unfolding_all rfl, by with_unfolding_all rfl⟩

/-! ## Claim C5: period aggregation equals the sum of daily aggregations -/

lemma dates_periode_vide (date_debut date_fin : ℤ) (h : date_fin < date_debut) :
    dates_periode date_debut date_fin = [] := by
  unfold dates_periode
  have : (date_fin + 1 - date_debut).toNat = 0 := by omega
  rw [this]
  rfl

lemma dates_periode_cons (date_debut date_fin : ℤ) (h : date_debut ≤ date_fin) :
    dates_periode date_debut date_fin =
      date_debut :: dates_periode (date_debut + 1) date_fin := by
  unfold dates_periode
  have h1 : (date_fin + 1 - date_debut).toNat =
      (date_fin + 1 - (date_debut + 1)).toNat + 1 := by omega
  rw [h1, List.range_succ_eq_map, List.map_cons, List.map_map]
  refine congrArg₂ _ (by norm_num) ?_
  apply List.map_congr_left
  intro i _
  simp
  omega

lemma dates_periode_mem (date_debut date_fin d : ℤ) :
    d ∈ dates_periode date_debut date_fin ↔ date_debut ≤ d ∧ d ≤ date_fin := by
  unfold dates_periode
  simp only [List.mem_map, List.mem_range]
  constructor
  · rintro ⟨i, hi, rfl⟩
    omega
  · rintro ⟨h1, h2⟩
    exact ⟨(d - date_debut).toNat, by omega, by omega⟩

lemma dates_periode_nodup (date_debut date_fin : ℤ) :
    (dates_periode date_debut date_fin).Nodup := by
  unfold dates_periode
  exact (List.nodup_range _).map (fun a b hab => by omega)

lemma pertes_periode_boucle_eq (L : Ledger) (date_fin : ℤ) :
    ∀ (n : ℕ) (current : ℤ), (date_fin + 1 - current).toNat = n →
      ∀ acc_litres acc_argent : ℚ,
        pertes_periode_boucle L date_fin current acc_litres acc_argent =
          (acc_litres + ((dates_periode current date_fin).map
            (fun d => (calculer_pertes_automatiques L d).pertes_totales_litres)).sum,
           acc_argent + ((dates_periode current date_fin).map
            (fun d => (calculer_pertes_automatiques L d).pertes_totales_argent)).sum) := by
  intro n
  induction n with
  | zero =>
    intro current hc acc_litres acc_argent
    have hlt : date_fin < current := by omega
    rw [pertes_periode_boucle, if_neg (by omega), dates_periode_vide _ _ hlt]
    simp
  | succ n ih =>
    intro current hc acc_litres acc_argent
    have hle : current ≤ date_fin := by omega
    rw [pertes_periode_boucle, if_pos hle, ih (current + 1) (by omega),
      dates_periode_cons _ _ hle]
    simp [add_assoc]

/-- C5 (confirmed): the period aggregation over `[start, end]` equals
the componentwise sum of the independently computed daily aggregations,
the iterated date list covers exactly the calendar dates of
`[start, end]` inclusive, and no date repeats — so a 7-day week is the
sum of its 7 daily reports, none double-counted or omitted. -/
theorem claim_C5 (L : Ledger) (date_debut date_fin : ℤ) :
    calculer_pertes_periode L date_debut date_fin =
      (((dates_periode date_debut date_fin).map
          (fun d => (calculer_pertes_automatiques L d).pertes_totales_litres)).sum,
       ((dates_periode date_debut date_fin).map
          (fun d => (calculer_pertes_automatiques L d).pertes_totales_argent)).sum) ∧
    (dates_periode date_debut date_fin).Nodup ∧
    (∀ d : ℤ, d ∈ dates_periode date_debut date_fin ↔
      date_debut ≤ d ∧ d ≤ date_fin) := by
  refine ⟨?_, dates_periode_nodup _ _, fun d => dates_periode_mem _ _ d⟩
  unfold calculer_pertes_periode
  rw [pertes_periode_boucle_eq L date_fin _ date_debut rfl]
  simp

/-- C5 (witness): over the 7-day range `[10, 16]` of the two-reservoir
ledger, the period totals equal the sum of the 7 daily totals. -/
theorem claim_C5_temoin :
    calculer_pertes_periode ledgerDeuxCuves 10 16 =
      (((dates_periode 10 16).map
          (fun d => (calculer_pertes_automatiques ledgerDeuxCuves d).pertes_totales_litres)).sum,
       ((dates_periode 10 16).map
          (fun d => (calculer_pertes_automatiques ledgerDeuxCuves d).pertes_totales_argent)).sum) ∧
    (dates_periode 10 16).length = 7 :=
  ⟨(claim_C5 ledgerDeuxCuves 10 16).1, by with_unfolding_all rfl⟩

/-! ## Claim C7: forecasting history guard and the daily mean -/

lemma sum_map_filter_add {α : Type} (p : α → Bool) (f : α → ℚ) (l : List α) :
    ((l.filter p).map f).sum + ((l.filter (fun a => ! p a)).map f).sum =
      (l.map f).sum := by
  induction l with
  | nil => simp
  | cons a t ih =>
    cases hpa : p a <;> simp [List.filter_cons, hpa] <;> linarith

lemma sum_fibres {α κ : Type} [DecidableEq κ] (key : α → κ) (f : α → ℚ) :
    ∀ (ds : List κ) (l : List α), ds.Nodup → (∀ a ∈ l, key a ∈ ds) →
      (ds.map (fun d => ((l.filter (fun a => decide (key a = d))).map f).sum)).sum =
        (l.map f).sum := by
  intro ds
  induction ds with
  | nil =>
    intro l _ h
    cases l with
    | nil => simp
    | cons a t => exact absurd (h a (by simp)) (by simp)
  | cons d ds ih =>
    intro l hnd h
    obtain ⟨hd_not, hds⟩ := List.nodup_cons.mp hnd
    have hsplit := sum_map_filter_add (fun a => decide (key a = d)) f l
    have hfib : ∀ d' ∈ ds,
        (l.filter (fun a => decide (key a = d'))).map f =
          ((l.filter (fun a => ! decide (key a = d))).filter
            (fun a => decide (key a = d'))).map f := by
      intro d' hd'
      rw [List.filter_filter]
      congr 1
      apply List.filter_congr
      intro a _
      have hdd : d ≠ d' := fun e => hd_not (e ▸ hd')
      by_cases hk : key a = d'
      · simp [hk, Ne.symm hdd]
      · simp [hk]
    have hmem : ∀ a ∈ l.filter (fun a => ! decide (key a = d)), key a ∈ ds := by
      intro a ha
      obtain ⟨hal, hcond⟩ := List.mem_filter.mp ha
      have hne : key a ≠ d := by simpa using hcond
      rcases List.mem_cons.mp (h a hal) with h1 | h1
      · exact absurd h1 hne
      · exact h1
    have ihl := ih (l.filter (fun a => ! decide (key a = d))) hds hmem
    rw [List.map_cons, List.sum_cons]
    calc ((l.filter (fun a => decide (key a = d))).map f).sum +
          (ds.map (fun d' => ((l.filter (fun a => decide (key a = d'))).map f).sum)).sum
        = ((l.filter (fun a => decide (key a = d))).map f).sum +
          (ds.map (fun d' => (((l.filter (fun a => ! decide (key a = d))).filter
            (fun a => decide (key a = d'))).map f).sum)).sum := by
          congr 1
          apply congrArg
          exact List.map_congr_left (fun d' hd' => by rw [hfib d' hd'])
      _ = ((l.filter (fun a => decide (key a = d))).map f).sum +
          ((l.filter (fun a => ! decide (key a = d))).map f).sum := by rw [ihl]
      _ = (l.map f).sum := hsplit

lemma historique_ventes_sum (L : Ledger) (reservoir_id : ℕ) (date_debut date_fin : ℤ) :
    ((historique_ventes L reservoir_id date_debut date_fin).map (fun h => h.2)).sum =
      ((ventes_fenetre L reservoir_id date_debut date_fin).map
        (fun v => v.quantite_vendue)).sum := by
  unfold historique_ventes jours_avec_ventes
  rw [List.map_map]
  exact sum_fibres (fun v : Vente => v.date) (fun v : Vente => v.quantite_vendue)
    (((ventes_fenetre L reservoir_id date_debut date_fin).map
      (fun v : Vente => v.date)).dedup)
    (ventes_fenetre L reservoir_id date_debut date_fin)
    (List.nodup_dedup _)
    (fun a ha => List.mem_dedup.mpr (List.mem_map_of_mem _ ha))

lemma historique_ventes_length (L : Ledger) (reservoir_id : ℕ) (date_debut date_fin : ℤ) :
    (historique_ventes L reservoir_id date_debut date_fin).length =
      (jours_avec_ventes L reservoir_id date_debut date_fin).length := by
  unfold historique_ventes
  rw [List.length_map]

/-- C7 (confirmed): the forecast fails with the insufficient-history
error exactly when fewer than 3 distinct days of the trailing 30-day
window carry at least one sale, and every successful forecast's daily
mean is the window's total volume sold divided by the number of distinct
days with a sale. -/
theorem claim_C7 (L : Ledger) (today : ℤ) (reservoir_id : ℕ) (jours : ℕ) :
    (predire_stock L today reservoir_id jours = ResultatPrediction.erreur_historique ↔
      (jours_avec_ventes L reservoir_id (today - 30) today).length < 3) ∧
    (∀ p, predire_stock L today reservoir_id jours = ResultatPrediction.ok p →
      p.vente_moyenne_jour =
        ((ventes_fenetre L reservoir_id (today - 30) today).map
          (fun v => v.quantite_vendue)).sum /
          (jours_avec_ventes L reservoir_id (today - 30) today).length) := by
  unfold predire_stock
  rcases hlt : decide ((historique_ventes L reservoir_id (today - 30) today).length < 3) with _ | _
  · have hge : ¬ (historique_ventes L reservoir_id (today - 30) today).length < 3 := by
      simpa using hlt
    rw [if_neg hge]
    constructor
    · constructor
      · intro hcontra
        rcases h1 : obtenir_niveau_quotidien L reservoir_id today with _ | niveau <;>
          rw [h1] at hcontra
        · exact absurd hcontra (by simp)
        · rcases h2 : obtenir_reservoir L reservoir_id with _ | reservoir <;>
            rw [h2] at hcontra
          · exact absurd hcontra (by simp)
          · exact absurd hcontra (by simp)
      · intro hc
        rw [historique_ventes_length] at hge
        exact absurd hc hge
    · intro p hp
      rcases h1 : obtenir_niveau_quotidien L reservoir_id today with _ | niveau <;>
        rw [h1] at hp
      · exact absurd hp (by simp)
      · rcases h2 : obtenir_reservoir L reservoir_id with _ | reservoir <;>
          rw [h2] at hp
        · exact absurd hp (by simp)
        · have hp' := (ResultatPrediction.ok.injEq _ _).mp hp.symm
          rw [hp']
          show (List.map (fun h => h.2)
              (historique_ventes L reservoir_id (today - 30) today)).sum /
              ((historique_ventes L reservoir_id (today - 30) today).length : ℚ) = _
          rw [historique_ventes_sum, historique_ventes_length]
  · have hlt' : (historique_ventes L reservoir_id (today - 30) today).length < 3 := by
      simpa using hlt
    rw [if_pos hlt']
    constructor
    · rw [historique_ventes_length] at hlt'
      exact ⟨fun _ => hlt', fun _ => rfl⟩
    · intro p hp
      exact absurd hp (by simp)

/-- C7 (witness): on the two-sale-day ledger the forecast fails with
the insufficient-history error. -/
theorem claim_C7_temoin :
    predire_stock ledgerDeuxJours 31 1 7 = ResultatPrediction.erreur_historique :=
  (claim_C7 ledgerDeuxJours 31 1 7).1.mpr (by
    have h2 : (jours_avec_ventes ledgerDeuxJours 1 (31 - 30) 31).length = 2 := by
      with_unfolding_all rfl
    omega)

/-! ## Claims C8 and C10: ranking, badges and membership -/

lemma attribuer_badge_star_iff (rang total : ℕ) :
    ((rang : ℚ) ≤ (total : ℚ) * (25 / 100)) ↔ 4 * rang ≤ total := by
  constructor
  · intro h
    have h4 : ((4 * rang : ℕ) : ℚ) ≤ ((total : ℕ) : ℚ) := by push_cast; linarith
    exact_mod_cast h4
  · intro h
    have h4 : ((4 * rang : ℕ) : ℚ) ≤ ((total : ℕ) : ℚ) := by exact_mod_cast h
    push_cast at h4
    linarith

lemma attribuer_badge_eq (rang total : ℕ) :
    attribuer_badge rang total =
      (if rang = 1 then Badge.gold
       else if rang = 2 then Badge.silver
       else if rang = 3 then Badge.bronze
       else if 4 * rang ≤ total then Badge.star
       else Badge.thumbs) := by
  unfold attribuer_badge
  by_cases h1 : rang = 1
  · simp [h1]
  · by_cases h2 : rang = 2
    · simp [h1, h2]
    · by_cases h3 : rang = 3
      · simp [h1, h2, h3]
      · simp only [if_neg h1, if_neg h2, if_neg h3]
        exact if_congr (attribuer_badge_star_iff rang total) rfl rfl

lemma ajouter_rangs_length (total : ℕ) :
    ∀ (i : ℕ) (l : List Performance), (ajouter_rangs total i l).length = l.length := by
  intro i l
  induction l generalizing i with
  | nil => rfl
  | cons p reste ih => simp [ajouter_rangs, ih]

lemma ajouter_rangs_get (total : ℕ) :
    ∀ (l : List Performance) (i k : ℕ) (hk : k < l.length),
      (ajouter_rangs total i l).get ⟨k, by rw [ajouter_rangs_length]; exact hk⟩ =
        { l.get ⟨k, hk⟩ with rang := i + k, badge := attribuer_badge (i + k) total } := by
  intro l
  induction l with
  | nil => intro i k hk; exact absurd hk (by simp)
  | cons p reste ih =>
    intro i k hk
    cases k with
    | zero => simp [ajouter_rangs]
    | succ k =>
      have hk' : k < reste.length := Nat.lt_of_succ_lt_succ hk
      have ihx := ih (i + 1) k hk'
      show (ajouter_rangs total (i + 1) reste).get ⟨k, _⟩ = _
      rw [ihx]
      have harith : i + 1 + k = i + (k + 1) := by omega
      rw [harith]
      rfl

lemma ajouter_rangs_map_id (total : ℕ) :
    ∀ (i : ℕ) (l : List Performance),
      (ajouter_rangs total i l).map (fun q => q.pompiste_id) =
        l.map (fun q => q.pompiste_id) := by
  intro i l
  induction l generalizing i with
  | nil => rfl
  | cons p reste ih => simp [ajouter_rangs, ih]

lemma inserer_performance_perm (p : Performance) :
    ∀ l : List Performance, (inserer_performance p l).Perm (p :: l) := by
  intro l
  induction l with
  | nil => exact List.Perm.refl [p]
  | cons q reste ih =>
    unfold inserer_performance
    by_cases h : p.total_montant < q.total_montant
    · rw [if_pos h]
      exact (ih.cons q).trans (List.Perm.swap p q reste)
    · rw [if_neg h]

lemma trier_performances_perm :
    ∀ l : List Performance, (trier_performances l).Perm l := by
  intro l
  induction l with
  | nil => exact List.Perm.refl []
  | cons p reste ih =>
    unfold trier_performances
    exact (inserer_performance_perm p (trier_performances reste)).trans (ih.cons p)

lemma performance_de_id (L : Ledger) (date_debut date_fin : ℤ) (p : Pompiste)
    (q : Performance) (h : performance_de L date_debut date_fin p = some q) :
    q.pompiste_id = p.id := by
  unfold performance_de at h
  by_cases hc : (ventes_pompiste L p.id date_debut date_fin).length ≠ 0
  · rw [if_pos hc] at h
    injection h with h'
    rw [← h']
  · rw [if_neg hc] at h
    exact absurd h (by simp)

lemma filterMap_performance_map_id (L : Ledger) (date_debut date_fin : ℤ) :
    ∀ ps : List Pompiste,
      ((ps.filterMap (performance_de L date_debut date_fin)).map (fun q => q.pompiste_id)) =
        ((ps.filter (fun p =>
          decide (0 < (ventes_pompiste L p.id date_debut date_fin).length))).map
          (fun p => p.id)) := by
  intro ps
  induction ps with
  | nil => rfl
  | cons p ps ih =>
    rw [List.filterMap_cons, List.filter_cons]
    by_cases h : (ventes_pompiste L p.id date_debut date_fin).length = 0
    · have h1 : performance_de L date_debut date_fin p = none := by
        unfold performance_de
        rw [if_neg (by simpa using h)]
      have h2 : decide (0 < (ventes_pompiste L p.id date_debut date_fin).length) = false := by
        simp [h]
      rw [h1, h2]
      simpa using ih
    · have h2 : decide (0 < (ventes_pompiste L p.id date_debut date_fin).length) = true := by
        simp
        omega
      cases hq : performance_de L date_debut date_fin p with
      | none =>
        unfold performance_de at hq
        rw [if_pos h] at hq
        exact absurd hq (by simp)
      | some q =>
        simp [performance_de_id L date_debut date_fin p q hq, ih, Nat.pos_of_ne_zero h]

/-- C8 (amended): in the ranked list of `N` attendants, the entry at
position `i` carries rank `i + 1`, and its badge is gold, silver or
bronze for the first three ranks, a star for any later rank `r` with
`4 * r ≤ N` (the source compares `r` against `N * 0.25` with no
rounding), and the thumbs-up default otherwise.  The claim's ceiling,
`r ≤ ceil(0.25 * N)`, is refuted by the counterexample. -/
theorem claim_C8 (L : Ledger) (date_debut date_fin : ℤ) (i : ℕ)
    (h : i < (analyser_performance_pompistes L date_debut date_fin).length) :
    ((analyser_performance_pompistes L date_debut date_fin).get ⟨i, h⟩).rang = i + 1 ∧
    ((analyser_performance_pompistes L date_debut date_fin).get ⟨i, h⟩).badge =
      (if i + 1 = 1 then Badge.gold
       else if i + 1 = 2 then Badge.silver
       else if i + 1 = 3 then Badge.bronze
       else if 4 * (i + 1) ≤ (analyser_performance_pompistes L date_debut date_fin).length
       then Badge.star
       else Badge.thumbs) := by
  have hlen : (analyser_performance_pompistes L date_debut date_fin).length =
      (trier_performances ((obtenir_pompistes L).filterMap
        (performance_de L date_debut date_fin))).length := by
    unfold analyser_performance_pompistes
    rw [ajouter_rangs_length]
  have hk : i < (trier_performances ((obtenir_pompistes L).filterMap
      (performance_de L date_debut date_fin))).length := hlen ▸ h
  have hget := ajouter_rangs_get
    (trier_performances ((obtenir_pompistes L).filterMap
      (performance_de L date_debut date_fin))).length
    (trier_performances ((obtenir_pompistes L).filterMap
      (performance_de L date_debut date_fin))) 1 i hk
  have hfix : (analyser_performance_pompistes L date_debut date_fin).get ⟨i, h⟩ =
      { (trier_performances ((obtenir_pompistes L).filterMap
          (performance_de L date_debut date_fin))).get ⟨i, hk⟩ with
        rang := 1 + i
        badge := attribuer_badge (1 + i)
          (trier_performances ((obtenir_pompistes L).filterMap
            (performance_de L date_debut date_fin))).length } := hget
  rw [hfix]
  refine ⟨by simp [Nat.add_comm], ?_⟩
  show attribuer_badge (1 + i) _ = _
  rw [attribuer_badge_eq, Nat.add_comm 1 i, ← hlen]

/-- C8 (witness): with exactly 4 ranked attendants the fourth entry has
rank 4 and the thumbs-up default badge, not a star — the claim's own
4-attendant scenario. -/
theorem claim_C8_temoin :
    ((analyser_performance_pompistes ledgerQuatre 1 31).get
      ⟨3, by rw [show (analyser_performance_pompistes ledgerQuatre 1 31).length = 4 from
        by with_unfolding_all rfl]; omega⟩).rang = 4 ∧
    ((analyser_performance_pompistes ledgerQuatre 1 31).get
      ⟨3, by rw [show (analyser_performance_pompistes ledgerQuatre 1 31).length = 4 from
        by with_unfolding_all rfl]; omega⟩).badge = Badge.thumbs := by
  have hlen4 : (analyser_performance_pompistes ledgerQuatre 1 31).length = 4 := by
    with_unfolding_all rfl
  have hc := claim_C8 ledgerQuatre 1 31 3 (by omega)
  refine ⟨hc.1, ?_⟩
  rw [hc.2, hlen4]
  norm_num

/-- C8 (counterexample): with 13 ranked attendants, the entry at rank 4
receives the thumbs-up badge from the source (`4 <= 13 * 0.25` fails),
while the claim's rule awards a star (`4 <= ceil(13 * 0.25) = 4`
holds). -/
theorem claim_C8_contre :
    (analyser_performance_pompistes ledgerTreize 1 31).length = 13 ∧
    ((analyser_performance_pompistes ledgerTreize 1 31).map (fun q => q.rang)).get? 3 =
      some 4 ∧
    ((analyser_performance_pompistes ledgerTreize 1 31).map (fun q => q.badge)).get? 3 =
      some Badge.thumbs ∧
    attribuer_badge_spec 4 13 = Badge.star := by
  refine ⟨by with_unfolding_all rfl, by with_unfolding_all rfl,
    by with_unfolding_all rfl, by with_unfolding_all rfl⟩

/-- C10 (confirmed): the ranking lists exactly the active attendants
with at least one sale in the month window — an active attendant with
no sale is absent — and the `N` against which ranks and badges are
assigned is the number of listed attendants. -/
theorem claim_C10 (L : Ledger) (date_debut date_fin : ℤ) :
    ((analyser_performance_pompistes L date_debut date_fin).map
      (fun q => q.pompiste_id)).Perm
      (((obtenir_pompistes L).filter (fun p =>
        decide (0 < (ventes_pompiste L p.id date_debut date_fin).length))).map
        (fun p => p.id)) ∧
    (analyser_performance_pompistes L date_debut date_fin).length =
      ((obtenir_pompistes L).filter (fun p =>
        decide (0 < (ventes_pompiste L p.id date_debut date_fin).length))).length := by
  have hperm : ((analyser_performance_pompistes L date_debut date_fin).map
      (fun q => q.pompiste_id)).Perm
      (((obtenir_pompistes L).filter (fun p =>
        decide (0 < (ventes_pompiste L p.id date_debut date_fin).length))).map
        (fun p => p.id)) := by
    unfold analyser_performance_pompistes
    rw [ajouter_rangs_map_id]
    have h1 := (trier_performances_perm ((obtenir_pompistes L).filterMap
      (performance_de L date_debut date_fin))).map (fun q => q.pompiste_id)
    rw [filterMap_performance_map_id] at h1
    exact h1
  refine ⟨hperm, ?_⟩
  have hlen := hperm.length_eq
  simpa using hlen

end GasStation
